import Mathlib

/-!
# Verification of the stock pattern analysis engine

Shallow embedding of `backend/analyzer.py`: the candlestick pattern
detector, the pattern validator, the outcome statistics aggregator, the
MMPS similarity fusion and the sliding-window search.

Modelling conventions:
* Prices and volumes are exact rationals (`ℚ`); the source computes with
  IEEE floats, and the claims are about the ideal arithmetic.
* The MMPS sub-scores use `exp`/`sqrt`, so that part of the model lives in
  `ℝ` (close prices are coerced from `ℚ`).
* A pandas DataFrame of bars is a `List PriceBar` in ascending date order;
  `iloc[i]` becomes `List.getD i default`, `tail(n)` becomes `lastN n`,
  `iloc[a:b]` becomes `drop`/`take`.
* Python dicts that preserve insertion order become association lists
  (`List (key × value)`) with lookup `alookup` and insert-or-update `aset`.
* The horizon dict keys `"1d"`, `"3d"`, ... are in bijection with the
  horizon numbers 1, 3, 5, 7, 10; they are modelled by the number itself.
* Python `round(x, n)` rounds ties to even; the model uses Mathlib `round`
  (ties away from zero).  No claim in this development evaluates a rounding
  at a tie, and every claim compares two expressions that use the same
  rounding function, so the tie convention is never observable here.
* `fastdtw` is an external library (not part of this repository).
  Modelled from the spec: §4.2 describes the sub-score as a DTW distance
  and §9 states that exact dynamic-programming DTW is an acceptable
  implementation; the model uses exact DTW.
-/

/-! ## Data model -/

/-- One OHLCV bar.  The source stores rows with columns
`date, open, high, low, close, volume`; `open` is a Lean keyword, so the
field is called `opn`. -/
structure PriceBar where
  date : String
  opn : ℚ
  high : ℚ
  low : ℚ
  close : ℚ
  volume : ℚ

instance : Inhabited PriceBar := ⟨⟨"", 0, 0, 0, 0, 0⟩⟩

/-- A detected candlestick pattern: the dict built by
`CandlestickPatternDetector`.  The validator later adds the keys
`trend_context` and `volume_confirmed`; they are modelled as `Option`
fields that start out `none`.  The source key `type` is a Lean keyword and
is called `ptype`. -/
structure CPattern where
  name : String
  ptype : String
  confidence : ℚ
  date : String
  index : ℕ
  description : String
  reliability : String
  confirmation : Bool
  components : List (String × ℚ)
  trend_context : Option String := none
  volume_confirmed : Option Bool := none

instance : Inhabited CPattern := ⟨⟨"", "", 0, "", 0, "", "", false, [], none, none⟩⟩

/-! ## Small helpers shared by the embedding -/

/-- `l.tail(n)` of pandas: the trailing `n` elements. -/
def lastN (n : ℕ) (l : List α) : List α := l.drop (l.length - n)

/-- Dict lookup on an insertion-ordered association list. -/
def alookup {κ : Type} [DecidableEq κ] (k : κ) : List (κ × α) → Option α
  | [] => none
  | (k2, v) :: t => if k = k2 then some v else alookup k t

/-- Dict write on an insertion-ordered association list: update in place if
the key exists, otherwise append at the end (Python dict semantics). -/
def aset {κ : Type} [DecidableEq κ] (k : κ) (v : α) : List (κ × α) → List (κ × α)
  | [] => [(k, v)]
  | (k2, w) :: t => if k = k2 then (k2, v) :: t else (k2, w) :: aset k v t

/-- `np.mean` over rationals (mean of the empty list is the junk value 0;
the source never takes it on an empty list in the modelled paths). -/
def qmean (l : List ℚ) : ℚ := l.sum / l.length

/-- `np.median` over rationals: sort, middle element, or mean of the two
middle elements. -/
def qmedian (l : List ℚ) : ℚ :=
  let s := l.mergeSort fun a b => decide (a ≤ b)
  if l.length % 2 = 1 then s.getD (l.length / 2) 0
  else (s.getD (l.length / 2 - 1) 0 + s.getD (l.length / 2) 0) / 2

/-- Python `round(x, 2)` (see the header note on ties). -/
def q_round2 (x : ℚ) : ℚ := (round (x * 100) : ℤ) / 100

/-- Python `round(x, 1)` (see the header note on ties). -/
def q_round1 (x : ℚ) : ℚ := (round (x * 10) : ℤ) / 10

/-- "The close prices of the window are all equal" — the degeneracy
condition quantified over in the MMPS claims. -/
def allSame (l : List ℚ) : Prop := ∀ x ∈ l, ∀ y ∈ l, x = y

/-! ## Candlestick pattern detector (`CandlestickPatternDetector`) -/

/-- `self.doji_threshold`. -/
def doji_threshold : ℚ := 5 / 100
/-- `self.long_shadow_ratio` (renamed, see header). -/
def long_shadow_mult : ℚ := 2
/-- `self.engulfing_threshold`. -/
def engulfing_threshold : ℚ := 9 / 10
/-- `self.min_body_ratio` (renamed, see header). -/
def min_body_frac : ℚ := 1 / 10

/-- The `1e-9` guard used in `body_ratio` (and in the MMPS structure
metric). -/
def epsQ : ℚ := 1 / 1000000000

/-- Output of `_get_candle_metrics`.  The source key `body_ratio` is
modelled as `body_frac` and `range` as `range_`. -/
structure CandleMetrics where
  opn : ℚ
  high : ℚ
  low : ℚ
  close : ℚ
  body : ℚ
  range_ : ℚ
  upper_shadow : ℚ
  lower_shadow : ℚ
  is_bullish : Bool
  body_frac : ℚ

/-- `_get_candle_metrics`. -/
def candle_metrics (b : PriceBar) : CandleMetrics :=
  { opn := b.opn, high := b.high, low := b.low, close := b.close,
    body := |b.close - b.opn|,
    range_ := b.high - b.low,
    upper_shadow := b.high - max b.close b.opn,
    lower_shadow := min b.close b.opn - b.low,
    is_bullish := decide (b.close > b.opn),
    body_frac := |b.close - b.opn| / ((b.high - b.low) + epsQ) }

/-- `_detect_single_patterns` at index `i` of `df`. -/
def _detect_single_patterns (df : List PriceBar) (i : ℕ) : List CPattern :=
  let m := candle_metrics (df.getD i default)
  let date := (df.getD i default).date
  (if m.body_frac < doji_threshold then
    [{ name := "Doji", ptype := "neutral", confidence := 75, date := date, index := i,
       description := "Market indecision - potential reversal point",
       reliability := "Medium", confirmation := false,
       components := [("price", m.close)] }] else []) ++
  (if m.lower_shadow > m.body * long_shadow_mult ∧ m.upper_shadow < m.body * (3/10) ∧
      m.body_frac > min_body_frac then
    [{ name := "Hammer", ptype := "reversal_bullish", confidence := 80, date := date, index := i,
       description := "Bullish reversal - buyers rejected lower prices",
       reliability := "High", confirmation := false,
       components := [("price", m.close), ("low", m.low)] }] else []) ++
  (if m.upper_shadow > m.body * long_shadow_mult ∧ m.lower_shadow < m.body * (3/10) ∧
      m.body_frac > min_body_frac then
    [{ name := "Shooting Star", ptype := "reversal_bearish", confidence := 80, date := date, index := i,
       description := "Bearish reversal - sellers rejected higher prices",
       reliability := "High", confirmation := false,
       components := [("price", m.close), ("high", m.high)] }] else []) ++
  (if m.body_frac < 3/10 ∧ m.upper_shadow > m.body ∧ m.lower_shadow > m.body then
    [{ name := "Spinning Top", ptype := "neutral", confidence := 65, date := date, index := i,
       description := "Indecision - balance between buyers and sellers",
       reliability := "Low", confirmation := false,
       components := [("price", m.close)] }] else [])

/-- `_detect_two_candle_patterns` at index `i` of `df` (previous bar at
`i - 1`). -/
def _detect_two_candle_patterns (df : List PriceBar) (i : ℕ) : List CPattern :=
  let pm := candle_metrics (df.getD (i - 1) default)
  let cm := candle_metrics (df.getD i default)
  let date := (df.getD i default).date
  (if ¬pm.is_bullish ∧ cm.is_bullish ∧ cm.opn ≤ pm.close ∧ cm.close ≥ pm.opn ∧
      cm.body > pm.body * engulfing_threshold then
    [{ name := "Bullish Engulfing", ptype := "reversal_bullish", confidence := 85, date := date,
       index := i, description := "Strong bullish reversal - buyers overwhelm sellers",
       reliability := "High", confirmation := false,
       components := [("prev_close", pm.close), ("curr_close", cm.close)] }] else []) ++
  (if pm.is_bullish ∧ ¬cm.is_bullish ∧ cm.opn ≥ pm.close ∧ cm.close ≤ pm.opn ∧
      cm.body > pm.body * engulfing_threshold then
    [{ name := "Bearish Engulfing", ptype := "reversal_bearish", confidence := 85, date := date,
       index := i, description := "Strong bearish reversal - sellers overwhelm buyers",
       reliability := "High", confirmation := false,
       components := [("prev_close", pm.close), ("curr_close", cm.close)] }] else []) ++
  (if ¬pm.is_bullish ∧ cm.is_bullish ∧ cm.opn ≥ pm.close ∧ cm.close ≤ pm.opn ∧
      cm.body < pm.body * (1/2) then
    [{ name := "Bullish Harami", ptype := "reversal_bullish", confidence := 70, date := date,
       index := i, description := "Potential bullish reversal - selling pressure weakening",
       reliability := "Medium", confirmation := false,
       components := [("prev_close", pm.close), ("curr_close", cm.close)] }] else []) ++
  (if pm.is_bullish ∧ ¬cm.is_bullish ∧ cm.opn ≤ pm.close ∧ cm.close ≥ pm.opn ∧
      cm.body < pm.body * (1/2) then
    [{ name := "Bearish Harami", ptype := "reversal_bearish", confidence := 70, date := date,
       index := i, description := "Potential bearish reversal - buying pressure weakening",
       reliability := "Medium", confirmation := false,
       components := [("prev_close", pm.close), ("curr_close", cm.close)] }] else []) ++
  (if ¬pm.is_bullish ∧ cm.is_bullish ∧ cm.opn < pm.low ∧
      cm.close > (pm.opn + pm.close) / 2 ∧ cm.close < pm.opn then
    [{ name := "Piercing Line", ptype := "reversal_bullish", confidence := 75, date := date,
       index := i, description := "Bullish reversal - strong buying after gap down",
       reliability := "Medium", confirmation := false,
       components := [("prev_close", pm.close), ("curr_close", cm.close)] }] else []) ++
  (if pm.is_bullish ∧ ¬cm.is_bullish ∧ cm.opn > pm.high ∧
      cm.close < (pm.opn + pm.close) / 2 ∧ cm.close > pm.opn then
    [{ name := "Dark Cloud Cover", ptype := "reversal_bearish", confidence := 75, date := date,
       index := i, description := "Bearish reversal - strong selling after gap up",
       reliability := "Medium", confirmation := false,
       components := [("prev_close", pm.close), ("curr_close", cm.close)] }] else [])

/-- `_detect_three_candle_patterns` at index `i` of `df` (bars at `i - 2`,
`i - 1`, `i`). -/
def _detect_three_candle_patterns (df : List PriceBar) (i : ℕ) : List CPattern :=
  let c1 := candle_metrics (df.getD (i - 2) default)
  let c2 := candle_metrics (df.getD (i - 1) default)
  let c3 := candle_metrics (df.getD i default)
  let date := (df.getD i default).date
  (if ¬c1.is_bullish ∧ c2.body_frac < 3/10 ∧ c3.is_bullish ∧
      c3.close > (c1.opn + c1.close) / 2 then
    [{ name := "Morning Star", ptype := "reversal_bullish", confidence := 90, date := date,
       index := i, description := "Strong bullish reversal - trend change confirmed",
       reliability := "High", confirmation := true,
       components := [("c1_close", c1.close), ("c2_close", c2.close), ("c3_close", c3.close)] }]
   else []) ++
  (if c1.is_bullish ∧ c2.body_frac < 3/10 ∧ ¬c3.is_bullish ∧
      c3.close < (c1.opn + c1.close) / 2 then
    [{ name := "Evening Star", ptype := "reversal_bearish", confidence := 90, date := date,
       index := i, description := "Strong bearish reversal - trend change confirmed",
       reliability := "High", confirmation := true,
       components := [("c1_close", c1.close), ("c2_close", c2.close), ("c3_close", c3.close)] }]
   else []) ++
  (if c1.is_bullish ∧ c2.is_bullish ∧ c3.is_bullish ∧
      c2.close > c1.close ∧ c3.close > c2.close ∧
      c1.body_frac > 1/2 ∧ c2.body_frac > 1/2 ∧ c3.body_frac > 1/2 then
    [{ name := "Three White Soldiers", ptype := "bullish", confidence := 85, date := date,
       index := i, description := "Strong bullish momentum - sustained buying pressure",
       reliability := "High", confirmation := true,
       components := [("c1_close", c1.close), ("c2_close", c2.close), ("c3_close", c3.close)] }]
   else []) ++
  (if ¬c1.is_bullish ∧ ¬c2.is_bullish ∧ ¬c3.is_bullish ∧
      c2.close < c1.close ∧ c3.close < c2.close ∧
      c1.body_frac > 1/2 ∧ c2.body_frac > 1/2 ∧ c3.body_frac > 1/2 then
    [{ name := "Three Black Crows", ptype := "bearish", confidence := 85, date := date,
       index := i, description := "Strong bearish momentum - sustained selling pressure",
       reliability := "High", confirmation := true,
       components := [("c1_close", c1.close), ("c2_close", c2.close), ("c3_close", c3.close)] }]
   else [])

/-- All rules at one index: the body of the `for i in range(2, len(df))`
loop in `detect_all_patterns` (the inner guards `i >= 1` and `i >= 2` are
always true there and are dropped). -/
def detect_at (df : List PriceBar) (i : ℕ) : List CPattern :=
  _detect_single_patterns df i ++ _detect_two_candle_patterns df i ++
    _detect_three_candle_patterns df i

/-- `detect_all_patterns`: scan indices `2, …, len(df) - 1`. -/
def detect_all_patterns (df : List PriceBar) : List CPattern :=
  (List.range' 2 (df.length - 2)).flatMap (detect_at df)

/-- Python `list.sort(key=lambda x: x['date'], reverse=True)`: a stable
sort, descending by date string, ties keeping the original order.  The
comparator `!(a.date < b.date)` is exactly "b.date ≤ a.date" for the
lexicographic string order. -/
def sort_by_date_desc (ps : List CPattern) : List CPattern :=
  ps.mergeSort fun a b => !decide (a.date < b.date)

/-- `StockAnalyzer.detect_candlestick_patterns`: restrict to the trailing
`lookback_days` bars (`df.tail(lookback_days).reset_index(drop=True)`),
detect, and sort by date, most recent first. -/
def detect_candlestick_patterns (df : List PriceBar) (lookback_days : ℕ) : List CPattern :=
  if df.isEmpty then []
  else sort_by_date_desc (detect_all_patterns (lastN lookback_days df))

/-! ## Pattern validator (`PatternValidator`) -/

/-- `self.trend_period`. -/
def trend_period : ℕ := 20
/-- `self.volume_period`. -/
def volume_period : ℕ := 20

/-- Slope of `np.polyfit(range(len(ys)), ys, 1)`: the closed-form solution
of the degree-1 least-squares normal equations,
`(n·Σxy − Σx·Σy) / (n·Σx² − (Σx)²)` with `x = 0, …, n−1`. -/
def polyfit_slope (ys : List ℚ) : ℚ :=
  let n : ℚ := ys.length
  let xs : List ℚ := (List.range ys.length).map (Nat.cast)
  let sx := xs.sum
  let sy := ys.sum
  let sxy := ((xs.zip ys).map fun p => p.1 * p.2).sum
  let sxx := (xs.map fun x => x * x).sum
  (n * sxy - sx * sy) / (n * sxx - sx * sx)

/-- `PatternValidator._get_trend`: classify the trend at `idx` from the 20
closes `iloc[idx-20:idx]`. -/
def _get_trend (df : List PriceBar) (idx : ℕ) : String :=
  if idx < trend_period then "unknown"
  else
    let recent_closes := ((df.map (·.close)).drop (idx - trend_period)).take trend_period
    let sma := qmean recent_closes
    let current_price := (df.getD idx default).close
    let slope := polyfit_slope recent_closes
    if slope > 0 ∧ current_price > sma * (102/100) then "uptrend"
    else if slope < 0 ∧ current_price < sma * (98/100) then "downtrend"
    else "sideways"

/-- `PatternValidator._check_volume` (the modelled frame always has a
volume column, so the `'volume' not in df.columns` guard is dropped). -/
def _check_volume (df : List PriceBar) (idx : ℕ) : Bool :=
  if idx < volume_period then false
  else
    decide ((df.getD idx default).volume >
      qmean (((df.map (·.volume)).drop (idx - volume_period)).take volume_period) * (12/10))

/-- `PatternValidator._is_trend_appropriate`. -/
def _is_trend_appropriate (ptype trend : String) : Bool :=
  if ptype = "reversal_bullish" then trend = "downtrend"
  else if ptype = "reversal_bearish" then trend = "uptrend"
  else if ptype = "bullish" then trend = "uptrend"
  else if ptype = "bearish" then trend = "downtrend"
  else true

/-- `PatternValidator.validate_patterns`: annotate each pattern in order;
patterns with `index < 20` pass through unmodified. -/
def validate_patterns (patterns : List CPattern) (df : List PriceBar) : List CPattern :=
  patterns.map fun p =>
    if p.index < trend_period then p
    else
      let trend := _get_trend df p.index
      let vc := _check_volume df p.index
      let p2 := { p with trend_context := some trend, volume_confirmed := some vc }
      if vc ∧ _is_trend_appropriate p2.ptype trend then
        { p2 with confirmation := true, confidence := min (p2.confidence + 10) 100 }
      else p2

/-! ## Outcome statistics aggregator (`calculate_pattern_statistics`) -/

/-- The forward-return horizons, in days. -/
def horizons : List ℕ := [1, 3, 5, 7, 10]

/-- The forward return collected for a pattern occurrence at `idx`:
`(close[idx+h] − close[idx]) / close[idx] × 100`. -/
def pattern_return (df : List PriceBar) (idx h : ℕ) : ℚ :=
  ((df.getD (idx + h) default).close - (df.getD idx default).close) /
    (df.getD idx default).close * 100

/-- First pass of `calculate_pattern_statistics`: per pattern name, the
occurrence count, the type, and the list of collected returns per horizon.
The per-name outcome dict always has exactly the horizon keys, so the
source loop `for horizon in horizons: if idx+h < len(df): append` is the
per-key update below. -/
structure RawNameStat where
  count : ℕ
  ptype : String
  outcomes : List (ℕ × List ℚ)

/-- First pass of `calculate_pattern_statistics` over the pattern list. -/
def collect_outcomes (patterns : List CPattern) (df : List PriceBar) :
    List (String × RawNameStat) :=
  patterns.foldl (fun stats p =>
    let cur := (alookup p.name stats).getD
      { count := 0, ptype := p.ptype, outcomes := horizons.map fun h => (h, []) }
    let cur2 : RawNameStat :=
      { count := cur.count + 1, ptype := cur.ptype,
        outcomes := cur.outcomes.map fun e =>
          if p.index + e.1 < df.length then (e.1, e.2 ++ [pattern_return df p.index e.1])
          else e }
    aset p.name cur2 stats) []

/-- Second pass: the per-horizon summary dict. -/
structure HorizonStat where
  mean : ℚ
  median : ℚ
  success_rate : ℚ
  avg_gain : ℚ
  avg_loss : ℚ
  count : ℕ

/-- Per-name entry of the final statistics table. -/
structure NameStat where
  count : ℕ
  ptype : String
  outcomes : List (ℕ × Option HorizonStat)

/-- Second pass of `calculate_pattern_statistics` for one outcome list:
`None` when no sample was collected, otherwise the summary record. -/
def summarize_outcomes (outs : List ℚ) : Option HorizonStat :=
  if outs.isEmpty then none
  else some
    { mean := q_round2 (qmean outs),
      median := q_round2 (qmedian outs),
      success_rate := q_round1 (((outs.filter fun x => decide (0 < x)).length : ℚ) /
        (outs.length : ℚ) * 100),
      avg_gain := if outs.any fun x => decide (0 < x) then
        q_round2 (qmean (outs.filter fun x => decide (0 < x))) else 0,
      avg_loss := if outs.any fun x => decide (x < 0) then
        q_round2 (qmean (outs.filter fun x => decide (x < 0))) else 0,
      count := outs.length }

/-- `calculate_pattern_statistics`: both passes. -/
def calculate_pattern_statistics (patterns : List CPattern) (df : List PriceBar) :
    List (String × NameStat) :=
  (collect_outcomes patterns df).map fun e =>
    (e.1, { count := e.2.count, ptype := e.2.ptype,
            outcomes := e.2.outcomes.map fun o => (o.1, summarize_outcomes o.2) })

/-! ## MMPS similarity fusion (`mmps_similarity`), over `ℝ` -/

noncomputable section

/-- The close column of a window, coerced to `ℝ`. -/
def closesR (w : List PriceBar) : List ℝ := w.map fun b => ((b.close : ℚ) : ℝ)

/-- `np.ndarray.min()` (junk 0 on the empty array, which raises in numpy;
the modelled calls never pass an empty window). -/
def listMin : List ℝ → ℝ
  | [] => 0
  | a :: t => t.foldl min a

/-- `np.ndarray.max()` (same remark as `listMin`). -/
def listMax : List ℝ → ℝ
  | [] => 0
  | a :: t => t.foldl max a

/-- The `1e-9` guard of the MMPS normalization. -/
def epsR : ℝ := 1 / 1000000000

/-- `(c - c.min()) / (c.max() - c.min() + 1e-9)`. -/
def normalizeCloses (c : List ℝ) : List ℝ :=
  c.map fun x => (x - listMin c) / (listMax c - listMin c + epsR)

/-- Sum of squares. -/
def sumSq (l : List ℝ) : ℝ := (l.map fun x => x ^ 2).sum

/-- Pointwise difference of two equal-length vectors. -/
def sub2 (a b : List ℝ) : List ℝ := List.zipWith (fun x y => x - y) a b

/-- `np.linalg.norm` of a vector. -/
def normE (l : List ℝ) : ℝ := Real.sqrt (sumSq l)

/-- `np.dot`. -/
def dotp (a b : List ℝ) : ℝ := (List.zipWith (fun x y => x * y) a b).sum

/-- `np.mean` over reals (junk 0 on the empty list). -/
def rmean (l : List ℝ) : ℝ := l.sum / l.length

/-- `np.std` (population standard deviation). -/
def rstd (l : List ℝ) : ℝ := Real.sqrt (rmean (l.map fun x => (x - rmean l) ^ 2))

/-- One entry of `np.gradient`: one-sided differences at the ends, central
differences inside.  numpy raises on arrays of length < 2; the junk value 0
is returned there (all modelled calls have length ≥ 2). -/
def gradEntry (l : List ℝ) (i : ℕ) : ℝ :=
  if l.length ≤ 1 then 0
  else if i = 0 then l.getD 1 0 - l.getD 0 0
  else if i = l.length - 1 then l.getD i 0 - l.getD (i - 1) 0
  else (l.getD (i + 1) 0 - l.getD (i - 1) 0) / 2

/-- `np.gradient` of a 1-d array. -/
def npGradient (l : List ℝ) : List ℝ := (List.range l.length).map (gradEntry l)

/-- `np.argmax`: index of the first occurrence of the maximum (junk 0 on
the empty array). -/
def argmaxFrom : ℕ → ℕ → ℝ → List ℝ → ℕ
  | _, bi, _, [] => bi
  | i, bi, bv, x :: t => if bv < x then argmaxFrom (i + 1) i x t else argmaxFrom (i + 1) bi bv t

/-- `np.argmax` on a list. -/
def argmaxIdx : List ℝ → ℕ
  | [] => 0
  | x :: t => argmaxFrom 1 0 x t

/-- `np.argmin`. -/
def argminFrom : ℕ → ℕ → ℝ → List ℝ → ℕ
  | _, bi, _, [] => bi
  | i, bi, bv, x :: t => if x < bv then argminFrom (i + 1) i x t else argminFrom (i + 1) bi bv t

/-- `np.argmin` on a list. -/
def argminIdx : List ℝ → ℕ
  | [] => 0
  | x :: t => argminFrom 1 0 x t

/-- Dynamic-time-warping cost matrix over the extended value domain
`ℝ≥0∞` (`⊤` plays the classical `∞` of the empty-prefix cells):
`D(i+1,j+1) = |x_i − y_j| + min(D(i,j+1), D(i+1,j), D(i,j))`. -/
def dtwD (x y : List ℝ) : ℕ → ℕ → ENNReal
  | 0, 0 => 0
  | _ + 1, 0 => ⊤
  | 0, _ + 1 => ⊤
  | i + 1, j + 1 =>
    ENNReal.ofReal |x.getD i 0 - y.getD j 0| +
      min (dtwD x y i (j + 1)) (min (dtwD x y (i + 1) j) (dtwD x y i j))

/-- The DTW distance between two sequences (see the header note: the
source calls the external `fastdtw` approximation; the spec admits exact
DTW for this sub-score). -/
def dtwDist (x y : List ℝ) : ℝ := (dtwD x y x.length y.length).toReal

/-- MMPS shape sub-score: `exp(-1.5 * ||n1 - n2||)`. -/
def shapeSim (n1 n2 : List ℝ) : ℝ := Real.exp (-(3/2) * normE (sub2 n1 n2))

/-- MMPS dtw sub-score: `exp(-0.5 * dtw_dist)`. -/
def dtwSim (n1 n2 : List ℝ) : ℝ := Real.exp (-(1/2) * dtwDist n1 n2)

/-- The per-bar structure feature from `feats`: the 3-vector
`(body, upper shadow, lower shadow) / (range + 1e-9)`. -/
def structFeats (w : List PriceBar) : List (ℝ × ℝ × ℝ) :=
  w.map fun b =>
    let o : ℝ := (b.opn : ℚ)
    let h : ℝ := (b.high : ℚ)
    let l : ℝ := (b.low : ℚ)
    let c : ℝ := (b.close : ℚ)
    let rng := (h - l) + epsR
    (|c - o| / rng, (h - max c o) / rng, (min c o - l) / rng)

/-- Row-wise euclidean distance between two structure feature vectors. -/
def featDist (p q : ℝ × ℝ × ℝ) : ℝ :=
  Real.sqrt ((p.1 - q.1) ^ 2 + (p.2.1 - q.2.1) ^ 2 + (p.2.2 - q.2.2) ^ 2)

/-- MMPS structure sub-score: `exp(-1.2 * mean row distance)`. -/
def structSim (d1 d2 : List PriceBar) : ℝ :=
  Real.exp (-(6/5) * rmean (List.zipWith featDist (structFeats d1) (structFeats d2)))

/-- MMPS trend sub-score: rescaled cosine of the two gradients, 0 when
either gradient has zero norm (the code tests `denom > 0`). -/
def trendSim (n1 n2 : List ℝ) : ℝ :=
  ((if 0 < normE (npGradient n1) * normE (npGradient n2) then
      dotp (npGradient n1) (npGradient n2) /
        (normE (npGradient n1) * normE (npGradient n2))
    else 0) + 1) / 2

/-- MMPS volatility sub-score: `exp(-3 * |std g1 - std g2|)`. -/
def volSim (n1 n2 : List ℝ) : ℝ :=
  Real.exp (-3 * |rstd (npGradient n1) - rstd (npGradient n2)|)

/-- MMPS turning-point sub-score: `exp(-5 * turn_err)`. -/
def turnSim (L : ℕ) (n1 n2 : List ℝ) : ℝ :=
  Real.exp (-5 * (|(argmaxIdx n1 : ℝ) / L - (argmaxIdx n2 : ℝ) / L| +
    |(argminIdx n1 : ℝ) / L - (argminIdx n2 : ℝ) / L|))

/-- The seven fields returned by `mmps_similarity`, each already rounded to
2 decimals.  The source key `structure` is a Lean keyword and is called
`structureScore`. -/
structure MMPSScore where
  final : ℝ
  shape : ℝ
  dtw : ℝ
  structureScore : ℝ
  trend : ℝ
  volatility : ℝ
  turning : ℝ

/-- Python `round(x, 2)` over `ℝ` (see the header note on ties). -/
def round2R (x : ℝ) : ℝ := (round (x * 100) : ℤ) / 100

/-- `mmps_similarity`: truncate both windows to their trailing shared
length, compute the six sub-scores, fuse with the fixed weights and scale
to 0–100. -/
def mmps_similarity (query cand : List PriceBar) : MMPSScore :=
  let L := min query.length cand.length
  let d1 := lastN L query
  let d2 := lastN L cand
  let n1 := normalizeCloses (closesR d1)
  let n2 := normalizeCloses (closesR d2)
  let final := (25/100 * shapeSim n1 n2 + 20/100 * dtwSim n1 n2 + 20/100 * structSim d1 d2 +
    15/100 * trendSim n1 n2 + 10/100 * volSim n1 n2 + 10/100 * turnSim L n1 n2) * 100
  { final := round2R final,
    shape := round2R (shapeSim n1 n2 * 100),
    dtw := round2R (dtwSim n1 n2 * 100),
    structureScore := round2R (structSim d1 d2 * 100),
    trend := round2R (trendSim n1 n2 * 100),
    volatility := round2R (volSim n1 n2 * 100),
    turning := round2R (turnSim L n1 n2 * 100) }

/-! ## Sliding-window search (`EnhancedPatternEngine`) -/

/-- One row of the `results` list built by `find_most_similar_pattern`. -/
structure MatchRow where
  start_idx : ℕ
  mmps : ℝ
  mmps_components : MMPSScore
  start_date : String
  end_date : String

/-- The row appended for candidate start index `i`. -/
def mkRow (df : List PriceBar) (window_size i : ℕ) : MatchRow :=
  let m := mmps_similarity (lastN window_size df) ((df.drop i).take window_size)
  { start_idx := i, mmps := m.final, mmps_components := m,
    start_date := (df.getD i default).date,
    end_date := (df.getD (i + window_size - 1) default).date }

/-- `results_df.sort_values('mmps', ascending=False)` for a non-empty
frame, following pandas `nargsort`: reverse the rows, argsort ascending,
reverse the indexer.  The ascending core is modelled as a stable merge
sort; numpy's default `kind='quicksort'` (introsort) coincides with a
stable sort on partitions below 17 elements but is unstable in general —
see the C5 discussion. -/
def sort_values_mmps_desc (rows : List MatchRow) : List MatchRow :=
  ((rows.reverse).mergeSort fun a b => decide (a.mmps ≤ b.mmps)).reverse

/-- `EnhancedPatternEngine.find_most_similar_pattern`.  The `.error` case
models the uncaught pandas `KeyError` raised by
`pd.DataFrame([]).sort_values('mmps', ...)` when the candidate list is
empty (exactly `len(df) == 2 * window_size`). -/
def find_most_similar_pattern (df : List PriceBar) (window_size top_n : ℕ) :
    Except String (List MatchRow) :=
  if df.length < 2 * window_size then .ok []
  else
    let results := (List.range (df.length - 2 * window_size)).map (mkRow df window_size)
    if results.isEmpty then .error "KeyError: mmps on empty DataFrame"
    else .ok ((sort_values_mmps_desc results).take top_n)

/-- The `analysis` dict of the engine result. -/
structure SignalAnalysis where
  signal : String
  confidence : ℚ
  mean_similarity : Option ℝ
  reason : String

/-- The engine result dict (the `predictions` aggregate of
`_calculate_predictions` is not needed by any claim and is omitted from
the model; `debug_info` keeps the reason/method string). -/
structure EngineResult where
  match_list : List MatchRow
  analysis : SignalAnalysis
  debug_info : String

/-- `EnhancedPatternEngine._empty_result`. -/
def _empty_result (reason : String) : EngineResult :=
  { match_list := [],
    analysis := { signal := "NEUTRAL", confidence := 0, mean_similarity := none, reason := reason },
    debug_info := reason }

/-- `EnhancedPatternEngine._generate_analysis`. -/
def _generate_analysis (ms : List MatchRow) : SignalAnalysis :=
  if ms.isEmpty then
    { signal := "NEUTRAL", confidence := 0, mean_similarity := none,
      reason := "Insufficient data" }
  else
    let avg := rmean (ms.map (·.mmps))
    if 75 < avg then
      { signal := "BUY", confidence := 75, mean_similarity := some avg,
        reason := "Based on patterns with avg similarity" }
    else if 65 < avg then
      { signal := "HOLD", confidence := 60, mean_similarity := some avg,
        reason := "Based on patterns with avg similarity" }
    else
      { signal := "NEUTRAL", confidence := 45, mean_similarity := some avg,
        reason := "Based on patterns with avg similarity" }

/-- `EnhancedPatternEngine.find_similar_patterns` (the second definition in
the class body, which overrides the first one in Python).  Its thin-history
guard is `len(df) < lookback_days + 30 + 10`. -/
def find_similar_patterns (df : List PriceBar) (lookback_days top_n : ℕ) :
    Except String EngineResult :=
  if df.length < lookback_days + 30 + 10 then .ok (_empty_result "Not enough historical data")
  else
    match find_most_similar_pattern df lookback_days top_n with
    | .error e => .error e
    | .ok [] => .ok (_empty_result "No patterns found")
    | .ok ms => .ok
        { match_list := ms, analysis := _generate_analysis ms, debug_info := "Enhanced MMPS" }

/-- `calculate_future_returns` (route helper): per-horizon forward returns
anchored at the end of the matched window, `None` for horizons beyond the
series, and `None` overall when even the window end is beyond the series
(unreachable for rows produced by the search). -/
def calculate_future_returns (df : List PriceBar) (start_idx window_size : ℕ) :
    Option (List (ℕ × Option ℚ)) :=
  let pattern_end_idx := start_idx + window_size
  if df.length ≤ pattern_end_idx then none
  else
    let base_price := (df.getD pattern_end_idx default).close
    some (horizons.map fun days =>
      (days,
        if pattern_end_idx + days < df.length then
          some (q_round2 (((df.getD (pattern_end_idx + days) default).close - base_price) /
            base_price * 100))
        else none))

end

/-! ## The `analyze_stock` statistics pipeline -/

/-- The candlestick part of the `/analyze` route: detect on the trailing 90
bars, validate against the full frame, aggregate statistics against the
full frame (steps 2–4 of `analyze_stock`). -/
def pipeline_pattern_stats (df : List PriceBar) : List (String × NameStat) :=
  calculate_pattern_statistics (validate_patterns (detect_candlestick_patterns df 90) df) df

/-! ## Spec-side definition for claim C9 -/

/-- Written from the words of claim C9 (not from the code): the trend
context of an occurrence at `idx`, from the 20 closes immediately
preceding `idx`: uptrend when the degree-1 least-squares slope over those
closes is positive and the current close exceeds 1.02 times their mean;
downtrend when the slope is negative and the current close is below 0.98
times their mean; sideways otherwise. -/
def trend_context_spec (df : List PriceBar) (idx : ℕ) : String :=
  let closes := (List.range 20).map fun j => (df.getD (idx - 20 + j) default).close
  let slope := polyfit_slope closes
  let sma := qmean closes
  let price := (df.getD idx default).close
  if slope > 0 ∧ price > (102/100) * sma then "uptrend"
  else if slope < 0 ∧ price < (98/100) * sma then "downtrend"
  else "sideways"

/-! ## Concrete inputs used by counterexamples and witnesses -/

/-- A bland bullish bar: no rule of the detector fires on a run of these
(body fraction 2/(6+1e-9) ≈ 0.333 sits between every threshold pair). -/
def normBar (d : String) : PriceBar :=
  { date := d, opn := 2, high := 6, low := 0, close := 4, volume := 1 }

/-- A doji bar (zero body). -/
def dojiBar (d : String) : PriceBar :=
  { date := d, opn := 1, high := 3, low := 0, close := 1, volume := 1 }

/-- Ascending date strings "100", "101", …: lexicographic order equals
chronological order, like ISO dates. -/
def dstr (i : ℕ) : String := toString (100 + i)

/-- 91 bars: 90 bland bars followed by one doji.  Since 91 > 90, the
detector's trailing sub-frame drops bar 0 and the sub-frame indices are
shifted by one against the full series. -/
def df91 : List PriceBar :=
  ((List.range 90).map fun i => normBar (dstr i)) ++ [dojiBar (dstr 90)]

/-- The pattern the detector emits for the doji bar of `df91`: sub-frame
index 89, full-series index 90. -/
def dojiP : CPattern :=
  { name := "Doji", ptype := "neutral", confidence := 75, date := dstr 90, index := 89,
    description := "Market indecision - potential reversal point",
    reliability := "Medium", confirmation := false,
    components := [("price", 1)] }

/-- Ten identical bars: a series with `len(series) = 2 * window_size` for
`window_size = 5`. -/
def df10 : List PriceBar := List.replicate 10 (normBar "100")

/-- Eleven identical bars with close 1 (used by the C7 witness). -/
def flatBar : PriceBar := { date := "100", opn := 1, high := 1, low := 1, close := 1, volume := 1 }

/-- Eleven flat bars. -/
def df11 : List PriceBar := List.replicate 11 flatBar

/-- Twenty-one flat bars (used by the C9 witness). -/
def df21 : List PriceBar := List.replicate 21 flatBar

/-- A pattern with an out-of-range starting confidence of 150 (the C6
counterexample input). -/
def hotP : CPattern :=
  { name := "Doji", ptype := "neutral", confidence := 150, date := "100", index := 0,
    description := "", reliability := "Medium", confirmation := false,
    components := [] }

/-- A neutral pattern at index 20 of a 21-bar frame (the C9 witness
input). -/
def patAt20 : CPattern :=
  { name := "Doji", ptype := "neutral", confidence := 75, date := "120", index := 20,
    description := "", reliability := "Medium", confirmation := false,
    components := [] }

/-- A neutral pattern at index 0 (the C8 witness input). -/
def patAt0 : CPattern :=
  { name := "Doji", ptype := "neutral", confidence := 75, date := "100", index := 0,
    description := "", reliability := "Medium", confirmation := false,
    components := [] }

/-- A two-bar window whose closes 1 and 2 are not all equal (the C1
witness input). -/
def win2 : List PriceBar :=
  [{ date := "100", opn := 1, high := 2, low := 1, close := 1, volume := 1 },
   { date := "101", opn := 1, high := 2, low := 1, close := 2, volume := 1 }]

/-- A second two-bar window (the C2 witness input). -/
def win2b : List PriceBar :=
  [{ date := "100", opn := 3, high := 4, low := 2, close := 3, volume := 1 },
   { date := "101", opn := 3, high := 5, low := 2, close := 5, volume := 1 }]

/-- The collected raw statistics for the C8 witness input. -/
def rawDoji : RawNameStat :=
  { count := 1, ptype := "neutral",
    outcomes := [(1, [0]), (3, [0]), (5, [0]), (7, [0]), (10, [0])] }

/-! ## Theorems -/

/-- C6 counterexample: a pattern whose starting confidence is 150 (index
0, so the validator passes it through unmodified) is emitted with
confidence 150 > 100, refuting "every pattern emitted by the validator has
confidence at most 100, regardless of the pattern's starting confidence
value". -/
theorem C6_counterexample :
    (validate_patterns [hotP] []).map (fun p => p.confidence) = [150] ∧ ¬ ((150 : ℚ) ≤ 100) :=
  ⟨rfl, by norm_num⟩

/-- C6 (amended): the validator never raises a confidence above 100: every
emitted pattern's confidence is at most `max (starting confidence) 100`;
in particular, when the input confidence is at most 100 the emitted
confidence is at most 100. -/
theorem C6_validator_confidence_bound (patterns : List CPattern) (df : List PriceBar) :
    List.Forall₂ (fun pin pout : CPattern =>
      pout.confidence ≤ max pin.confidence 100 ∧
        (pin.confidence ≤ 100 → pout.confidence ≤ 100))
      patterns (validate_patterns patterns df) := by
  unfold validate_patterns
  rw [List.forall₂_map_right_iff, List.forall₂_same]
  intro p _
  dsimp only
  split_ifs with h1 h2
  · exact ⟨le_max_left _ _, fun h => h⟩
  · exact ⟨(min_le_right _ _).trans (le_max_right _ _), fun _ => min_le_right _ _⟩
  · exact ⟨le_max_left _ _, fun h => h⟩

/-- C3: at `len(series) = 2 * window_size` (here 10 bars, window 5) the
candidate index range `0..N-2W` is empty and `find_most_similar_pattern`
reaches `pd.DataFrame([]).sort_values('mmps', ...)`, which raises a
`KeyError` instead of returning a result — the search neither returns a
sorted list nor a structured empty result there. -/
theorem C3_search_raises_on_exact_2W :
    find_most_similar_pattern df10 5 5 = .error "KeyError: mmps on empty DataFrame" := rfl

/-- Every row of a successful search comes from a candidate start index
`i < len(df) - 2 * window_size`. -/
lemma mem_ok_rows {df : List PriceBar} {W top_n : ℕ} {rows : List MatchRow} {r : MatchRow}
    (hok : find_most_similar_pattern df W top_n = .ok rows) (hr : r ∈ rows) :
    ∃ i < df.length - 2 * W, r = mkRow df W i := by
  simp only [find_most_similar_pattern] at hok
  split at hok
  · cases hok
    cases hr
  · split at hok
    · cases hok
    · cases hok
      have h1 : r ∈ sort_values_mmps_desc
          ((List.range (df.length - 2 * W)).map (mkRow df W)) :=
        List.mem_of_mem_take hr
      unfold sort_values_mmps_desc at h1
      rw [List.mem_reverse, List.mem_mergeSort, List.mem_reverse] at h1
      obtain ⟨i, hi, rfl⟩ := List.mem_map.mp h1
      exact ⟨i, List.mem_range.mp hi, rfl⟩

/-- C7: for every row of a successful sliding-window search, the
per-horizon future returns are anchored at the end of the matched window
(`start_idx + window_size`): the entry for horizon `h` is
`round((close[end+h] - close[end]) / close[end] * 100, 2)` when bar
`end + h` exists, `None` when it does not, and the call returns a dict
(`some …`), never an error. -/
theorem C7_future_returns (df : List PriceBar) (W top_n : ℕ) (rows : List MatchRow)
    (r : MatchRow) (hok : find_most_similar_pattern df W top_n = Except.ok rows)
    (hr : r ∈ rows) :
    calculate_future_returns df r.start_idx W =
      some (horizons.map fun h =>
        (h, if r.start_idx + W + h < df.length then
            some (q_round2 (((df.getD (r.start_idx + W + h) default).close -
              (df.getD (r.start_idx + W) default).close) /
              (df.getD (r.start_idx + W) default).close * 100))
          else none)) := by
  obtain ⟨i, hi, rfl⟩ := mem_ok_rows hok hr
  have hstart : (mkRow df W i).start_idx = i := rfl
  rw [hstart]
  simp only [calculate_future_returns]
  rw [if_neg (by omega)]

/-- Sorting a one-row frame returns it unchanged. -/
lemma sort_singleton (r : MatchRow) : sort_values_mmps_desc [r] = [r] := by
  unfold sort_values_mmps_desc
  rw [List.reverse_singleton, List.perm_singleton.mp (List.mergeSort_perm [r] _),
    List.reverse_singleton]

/-- The search on eleven flat bars with window 5 returns exactly the
candidate at start index 0. -/
lemma getD_df11 (k : ℕ) (hk : k < 11) : df11.getD k default = flatBar := by
  show (List.replicate 11 flatBar).getD k default = flatBar
  rw [List.getD_eq_getElem?_getD, List.getElem?_replicate, if_pos hk]
  rfl

lemma getElem?_df11 (k : ℕ) (hk : k < 11) : df11[k]? = some flatBar := by
  show (List.replicate 11 flatBar)[k]? = some flatBar
  rw [List.getElem?_replicate, if_pos hk]

lemma find_df11 : find_most_similar_pattern df11 5 5 = Except.ok [mkRow df11 5 0] := by
  have hlen : df11.length = 11 := by simp [df11]
  have hr1 : List.range 1 = [0] := rfl
  simp only [find_most_similar_pattern, hr1, hlen, Nat.reduceMul, Nat.reduceSub,
    List.map_cons, List.map_nil]
  rw [if_neg (by norm_num), if_neg (by simp), sort_singleton]
  rfl

/-- C7 witness: on eleven flat bars the single search row has window end
at bar 5; horizons 1, 3 and 5 land inside the series (all returns 0) and
horizons 7 and 10 fall beyond it and are `None`. -/
theorem C7_witness :
    find_most_similar_pattern df11 5 5 = Except.ok [mkRow df11 5 0] ∧
    calculate_future_returns df11 (mkRow df11 5 0).start_idx 5 =
      some [(1, some 0), (3, some 0), (5, some 0), (7, none), (10, none)] := by
  refine ⟨find_df11, ?_⟩
  have h := C7_future_returns df11 5 5 [mkRow df11 5 0] (mkRow df11 5 0) find_df11
    (List.mem_singleton_self _)
  rw [h]
  have hlen : df11.length = 11 := by simp [df11]
  have hs : (mkRow df11 5 0).start_idx = 0 := rfl
  simp only [hs, hlen, horizons, List.map_cons, List.map_nil]
  norm_num [getD_df11, getElem?_df11, flatBar, q_round2]

/-- The pandas slice `df['close'].iloc[idx-20:idx]` is the list of the 20
closes immediately preceding `idx`. -/
lemma slice_closes (df : List PriceBar) (idx : ℕ) (h20 : 20 ≤ idx) (hlen : idx ≤ df.length) :
    ((df.map (fun b => b.close)).drop (idx - 20)).take 20 =
      (List.range 20).map fun j => (df.getD (idx - 20 + j) default).close := by
  apply List.ext_getElem
  · simp only [List.length_take, List.length_drop, List.length_map, List.length_range]
    omega
  · intro j h1 h2
    have hj : j < 20 := by
      simp only [List.length_take, List.length_drop, List.length_map] at h1
      omega
    have hidx : idx - 20 + j < df.length := by omega
    simp only [List.getElem_take, List.getElem_drop, List.getElem_map, List.getElem_range]
    rw [List.getD_eq_getElem df default hidx]

/-- `_get_trend` computes exactly the classification described by the
spec: slope and mean over the 20 closes preceding `idx`, thresholds 1.02
and 0.98. -/
lemma get_trend_eq_spec (df : List PriceBar) (idx : ℕ) (h20 : 20 ≤ idx)
    (hlen : idx ≤ df.length) :
    _get_trend df idx = trend_context_spec df idx := by
  have hnl : ¬ (idx < 20) := by omega
  simp only [_get_trend, trend_context_spec, trend_period, hnl, if_false,
    slice_closes df idx h20 hlen]
  generalize (List.range 20).map (fun j => (df.getD (idx - 20 + j) default).close) = cs
  generalize (df.getD idx default).close = pr
  rw [mul_comm (qmean cs) ((102 : ℚ)/100), mul_comm (qmean cs) ((98 : ℚ)/100)]

/-- C9: for every pattern list, series, and pattern occurrence at index
`idx ≥ 20` (within the series), the validator annotates that occurrence
with the trend context computed from the 20 closes immediately preceding
`idx`: uptrend when the least-squares slope is positive and the close
exceeds 1.02 times their mean, downtrend when the slope is negative and
the close is below 0.98 times their mean, sideways otherwise. -/
theorem C9_trend_context (patterns : List CPattern) (df : List PriceBar) (i : ℕ)
    (p : CPattern) (hp : patterns[i]? = some p) (h20 : 20 ≤ p.index)
    (hlen : p.index ≤ df.length) :
    ∃ q, (validate_patterns patterns df)[i]? = some q ∧
      q.trend_context = some (trend_context_spec df p.index) := by
  unfold validate_patterns
  rw [List.getElem?_map, hp]
  refine ⟨_, rfl, ?_⟩
  have hnl : ¬ p.index < trend_period := by simp only [trend_period]; omega
  dsimp only [Option.map]
  rw [if_neg hnl]
  split_ifs with h
  · dsimp only
    rw [get_trend_eq_spec df p.index h20 hlen]
  · dsimp only
    rw [get_trend_eq_spec df p.index h20 hlen]

/-- C9 witness: a pattern at index 20 of a 21-bar flat series. -/
theorem C9_witness :
    ([patAt20][0]? = some patAt20) ∧ 20 ≤ patAt20.index ∧ patAt20.index ≤ df21.length ∧
    ∃ q, (validate_patterns [patAt20] df21)[0]? = some q ∧
      q.trend_context = some (trend_context_spec df21 patAt20.index) := by
  have h1 : [patAt20][0]? = some patAt20 := rfl
  have h2 : 20 ≤ patAt20.index := by decide
  have h3 : patAt20.index ≤ df21.length := by simp [patAt20, df21]
  exact ⟨h1, h2, h3, C9_trend_context [patAt20] df21 0 patAt20 h1 h2 h3⟩

/-- Mapping the values of an association list commutes with lookup. -/
lemma alookup_map_val {κ : Type} [DecidableEq κ] {α β : Type} (f : α → β) (k : κ)
    (l : List (κ × α)) :
    alookup k (l.map fun e => (e.1, f e.2)) = (alookup k l).map f := by
  induction l with
  | nil => rfl
  | cons e t ih =>
    obtain ⟨k2, v⟩ := e
    simp only [List.map_cons, alookup]
    split_ifs <;> simp [ih]

/-- A Bool predicate holds somewhere iff its filter is non-empty. -/
lemma any_iff_filter_ne (p : ℚ → Bool) (l : List ℚ) : l.any p = true ↔ l.filter p ≠ [] := by
  rw [List.any_eq_true, Ne, List.filter_eq_nil_iff]
  simp

/-- Lookup in the final statistics table is lookup in the collected table
followed by summarizing. -/
lemma alookup_calc (patterns : List CPattern) (df : List PriceBar) (name : String) :
    alookup name (calculate_pattern_statistics patterns df) =
      (alookup name (collect_outcomes patterns df)).map
        fun r => { count := r.count, ptype := r.ptype,
                   outcomes := r.outcomes.map fun o => (o.1, summarize_outcomes o.2) } := by
  unfold calculate_pattern_statistics
  generalize collect_outcomes patterns df = l
  induction l with
  | nil => rfl
  | cons e t ih =>
    obtain ⟨k2, v⟩ := e
    simp only [List.map_cons, alookup]
    split_ifs <;> simp [ih]

/-- C8: for every pattern name present in the statistics table and every
horizon, with `outs` the collected returns (`k = outs.length` occurrences,
`p` of them positive): the summary reports
`success_rate = round(p/k*100, 1)`, `avg_gain` the mean of the positive
returns (0 when there are none), `avg_loss` the mean of the negative
returns (0 when there are none), and the entry is the explicit null
(`none`) when `k = 0` — never a 0/0 computation. -/
theorem C8_statistics_formulas (patterns : List CPattern) (df : List PriceBar)
    (name : String) (raw : RawNameStat)
    (h : alookup name (collect_outcomes patterns df) = some raw)
    (hz : ℕ) (outs : List ℚ)
    (h2 : alookup hz raw.outcomes = some outs) :
    ∃ ns : NameStat, alookup name (calculate_pattern_statistics patterns df) = some ns ∧
      alookup hz ns.outcomes =
        some (if outs = [] then none else some
          { mean := q_round2 (qmean outs),
            median := q_round2 (qmedian outs),
            success_rate := q_round1 (((outs.filter fun x => decide (0 < x)).length : ℚ) /
              (outs.length : ℚ) * 100),
            avg_gain := if (outs.filter fun x => decide (0 < x)) ≠ [] then
              q_round2 (qmean (outs.filter fun x => decide (0 < x))) else 0,
            avg_loss := if (outs.filter fun x => decide (x < 0)) ≠ [] then
              q_round2 (qmean (outs.filter fun x => decide (x < 0))) else 0,
            count := outs.length }) := by
  refine ⟨{ count := raw.count, ptype := raw.ptype,
            outcomes := raw.outcomes.map fun o => (o.1, summarize_outcomes o.2) }, ?_, ?_⟩
  · rw [alookup_calc, h]
    rfl
  · show alookup hz (raw.outcomes.map fun o => (o.1, summarize_outcomes o.2)) = _
    rw [alookup_map_val summarize_outcomes hz raw.outcomes, h2]
    show some _ = _
    refine congrArg some ?_
    by_cases he : outs = []
    · subst he
      simp [summarize_outcomes]
    · rw [if_neg he]
      have hne : ¬ outs.isEmpty = true := by simpa [List.isEmpty_iff] using he
      rw [summarize_outcomes, if_neg hne]
      simp only [Option.some.injEq, HorizonStat.mk.injEq]
      refine ⟨trivial, trivial, trivial, ?_, ?_, trivial⟩
      · exact if_congr (any_iff_filter_ne _ _) rfl rfl
      · exact if_congr (any_iff_filter_ne _ _) rfl rfl

/-- Collecting outcomes for one neutral pattern at index 0 of eleven flat
bars: every horizon lands inside the series with return 0. -/
lemma collect_df11 : collect_outcomes [patAt0] df11 = [("Doji", rawDoji)] := by
  have hlen : df11.length = 11 := by simp [df11]
  simp only [collect_outcomes, List.foldl_cons, List.foldl_nil, alookup, horizons,
    List.map_cons, List.map_nil, hlen]
  norm_num [patAt0, aset, rawDoji, pattern_return, getD_df11, getElem?_df11, flatBar]

/-- C8 witness: the statistics of a single "Doji" occurrence at index 0 of
eleven flat bars, at horizon 1 with collected returns `[0]`. -/
theorem C8_witness :
    alookup "Doji" (collect_outcomes [patAt0] df11) = some rawDoji ∧
    alookup 1 rawDoji.outcomes = some [(0 : ℚ)] ∧
    (∃ ns : NameStat, alookup "Doji" (calculate_pattern_statistics [patAt0] df11) = some ns ∧
      alookup 1 ns.outcomes =
        some (if ([(0 : ℚ)] : List ℚ) = [] then none else some
          { mean := q_round2 (qmean [(0 : ℚ)]),
            median := q_round2 (qmedian [(0 : ℚ)]),
            success_rate := q_round1 ((([(0 : ℚ)].filter fun x => decide (0 < x)).length : ℚ) /
              (([(0 : ℚ)] : List ℚ).length : ℚ) * 100),
            avg_gain := if ([(0 : ℚ)].filter fun x => decide (0 < x)) ≠ [] then
              q_round2 (qmean ([(0 : ℚ)].filter fun x => decide (0 < x))) else 0,
            avg_loss := if ([(0 : ℚ)].filter fun x => decide (x < 0)) ≠ [] then
              q_round2 (qmean ([(0 : ℚ)].filter fun x => decide (x < 0))) else 0,
            count := ([(0 : ℚ)] : List ℚ).length })) := by
  have h : alookup "Doji" (collect_outcomes [patAt0] df11) = some rawDoji := by
    rw [collect_df11]
    simp [alookup]
  have h2 : alookup 1 rawDoji.outcomes = some [(0 : ℚ)] := rfl
  exact ⟨h, h2, C8_statistics_formulas [patAt0] df11 "Doji" rawDoji h 1 [0] h2⟩

/-- Membership in a conditional singleton. -/
lemma mem_ite_singleton {c : Prop} [Decidable c] {a x : CPattern} :
    (a ∈ if c then [x] else []) ↔ c ∧ a = x := by
  split_ifs with h <;> simp_all

/-- Every pattern emitted by the rules at scan index `i` carries
`index = i` and the date of bar `i`. -/
lemma detect_at_fields {df : List PriceBar} {i : ℕ} {p : CPattern}
    (hp : p ∈ detect_at df i) :
    p.index = i ∧ p.date = (df.getD i default).date := by
  simp only [detect_at, _detect_single_patterns, _detect_two_candle_patterns,
    _detect_three_candle_patterns, List.mem_append, mem_ite_singleton, or_assoc] at hp
  rcases hp with h|h|h|h|h|h|h|h|h|h|h|h|h|h <;> obtain ⟨-, rfl⟩ := h <;> exact ⟨rfl, rfl⟩

/-- `tail(n)` has length `min (length) n`. -/
lemma lastN_length (n : ℕ) (l : List α) : (lastN n l).length = min l.length n := by
  simp only [lastN, List.length_drop]
  omega

/-- Detected patterns come from a scan index `2 ≤ i < length` of the
scanned frame, with `index = i` and the date of bar `i` of that frame. -/
lemma mem_detect_all {df : List PriceBar} {p : CPattern}
    (hp : p ∈ detect_all_patterns df) :
    ∃ i, 2 ≤ i ∧ i < df.length ∧ p.index = i ∧ p.date = (df.getD i default).date := by
  rw [detect_all_patterns, List.mem_flatMap] at hp
  obtain ⟨i, hi, hpi⟩ := hp
  rw [List.mem_range'] at hi
  obtain ⟨k, hk, rfl⟩ := hi
  obtain ⟨h1, h2⟩ := detect_at_fields hpi
  exact ⟨2 + 1 * k, by omega, by omega, h1, h2⟩

/-- C10: for a non-empty series, candlestick detection scans only the
trailing `min(N, 90)` bars: every emitted pattern's `index` is a sub-frame
position in `[2, min(N, 90))`; the result is sorted by date string in
descending (most-recent-first) order; and the result depends only on the
trailing 90 bars of the series. -/
theorem C10_detection_window (df : List PriceBar) (hne : df ≠ []) :
    (∀ p ∈ detect_candlestick_patterns df 90, 2 ≤ p.index ∧ p.index < min df.length 90) ∧
    List.Pairwise (fun a b : CPattern => b.date ≤ a.date)
      (detect_candlestick_patterns df 90) ∧
    (∀ df2 : List PriceBar, df2 ≠ [] → lastN 90 df = lastN 90 df2 →
      detect_candlestick_patterns df 90 = detect_candlestick_patterns df2 90) := by
  have hie : ¬ df.isEmpty = true := by simpa [List.isEmpty_iff] using hne
  refine ⟨?_, ?_, ?_⟩
  · intro p hp
    rw [detect_candlestick_patterns, if_neg hie] at hp
    rw [sort_by_date_desc, List.mem_mergeSort] at hp
    obtain ⟨i, h2i, hilen, hidx, -⟩ := mem_detect_all hp
    rw [lastN_length] at hilen
    omega
  · rw [detect_candlestick_patterns, if_neg hie, sort_by_date_desc]
    have hs := @List.sorted_mergeSort CPattern
      (fun a b : CPattern => !decide (a.date < b.date))
      (fun a b c hab hbc => by
        simp only [Bool.not_eq_true', decide_eq_false_iff_not] at hab hbc ⊢
        intro hac
        rcases lt_trichotomy a.date b.date with h | h | h
        · exact hab h
        · exact hbc (h ▸ hac)
        · exact hbc (h.trans hac))
      (fun a b => by
        simp only [Bool.or_eq_true, Bool.not_eq_true', decide_eq_false_iff_not]
        by_cases h : a.date < b.date
        · exact Or.inr (lt_asymm h)
        · exact Or.inl h)
      (detect_all_patterns (lastN 90 df))
    refine hs.imp ?_
    intro a b hab
    simp only [Bool.not_eq_true', decide_eq_false_iff_not] at hab
    exact not_lt.mp hab
  · intro df2 hne2 hlast
    have hie2 : ¬ df2.isEmpty = true := by simpa [List.isEmpty_iff] using hne2
    rw [detect_candlestick_patterns, detect_candlestick_patterns, if_neg hie, if_neg hie2,
      hlast]

/-- C10 witness: a one-bar series (the detection range is empty, the
sortedness and locality conclusions are concrete). -/
theorem C10_witness :
    ([normBar "100"] ≠ ([] : List PriceBar)) ∧
    ((∀ p ∈ detect_candlestick_patterns [normBar "100"] 90,
        2 ≤ p.index ∧ p.index < min [normBar "100"].length 90) ∧
      List.Pairwise (fun a b : CPattern => b.date ≤ a.date)
        (detect_candlestick_patterns [normBar "100"] 90) ∧
      (∀ df2 : List PriceBar, df2 ≠ [] → lastN 90 [normBar "100"] = lastN 90 df2 →
        detect_candlestick_patterns [normBar "100"] 90 =
          detect_candlestick_patterns df2 90)) :=
  ⟨by simp, C10_detection_window [normBar "100"] (by simp)⟩

/-- `getD` through `drop`. -/
lemma getD_drop (l : List PriceBar) (m i : ℕ) :
    (l.drop m).getD i default = l.getD (m + i) default := by
  rw [List.getD_eq_getElem?_getD, List.getD_eq_getElem?_getD, List.getElem?_drop]

/-- C4 (the code bug): when the series is longer than 90 bars, a pattern
emitted by `detect_candlestick_patterns` was detected at the bar at full
index `p.index + (N - 90)` (its stored date is that bar's date), which
differs from `p.index`; yet the statistics collector anchors that
pattern's forward returns at full index `p.index`
(`pattern_return df p.index h` reads `close[p.index]` and
`close[p.index + h]`).  So the statistics are not anchored at the bar at
which the pattern was detected. -/
theorem C4_stats_anchor_mismatch (df : List PriceBar) (p : CPattern)
    (hlen : 90 < df.length) (hp : p ∈ detect_candlestick_patterns df 90) :
    p.date = (df.getD (p.index + (df.length - 90)) default).date ∧
    p.index + (df.length - 90) ≠ p.index ∧
    collect_outcomes [p] df = [(p.name,
      { count := 1, ptype := p.ptype,
        outcomes := horizons.map fun h =>
          (h, if p.index + h < df.length then [pattern_return df p.index h] else []) })] := by
  have hie : ¬ df.isEmpty = true := by
    simp only [List.isEmpty_iff]
    intro h
    rw [h] at hlen
    simp at hlen
  rw [detect_candlestick_patterns, if_neg hie, sort_by_date_desc, List.mem_mergeSort] at hp
  obtain ⟨i, h2i, hilen, hidx, hdate⟩ := mem_detect_all hp
  refine ⟨?_, by omega, ?_⟩
  · rw [hdate, lastN, getD_drop, Nat.add_comm, hidx]
  · simp only [collect_outcomes, List.foldl_cons, List.foldl_nil, alookup, Option.getD_none,
      aset, List.map_map]
    refine congrArg (fun r => [(p.name, r)]) ?_
    refine congrArg (RawNameStat.mk 1 p.ptype) ?_
    refine List.map_congr_left ?_
    intro h hh
    simp only [Function.comp_apply]
    split_ifs with hc
    · simp
    · rfl

/-- The sub-frame scanned for `df91` ends with the doji bar at sub-frame
index 89 (= full index 90). -/
lemma getD_recent89 : (lastN 90 df91).getD 89 default = dojiBar (dstr 90) := by
  have hlen : df91.length = 91 := by simp [df91]
  rw [lastN, hlen, getD_drop]
  show df91.getD 90 default = dojiBar (dstr 90)
  rw [List.getD_eq_getElem?_getD, df91, List.getElem?_append_right (by simp)]
  simp

/-- The detector emits `dojiP` for `df91`. -/
lemma dojiP_mem : dojiP ∈ detect_candlestick_patterns df91 90 := by
  rw [detect_candlestick_patterns, if_neg (by simp [df91]), sort_by_date_desc,
    List.mem_mergeSort, detect_all_patterns, List.mem_flatMap]
  refine ⟨89, ?_, ?_⟩
  · rw [List.mem_range']
    refine ⟨87, ?_, by norm_num⟩
    have h : (lastN 90 df91).length = 90 := by
      rw [lastN_length]
      simp [df91]
    rw [h]
    norm_num
  · rw [detect_at]
    refine List.mem_append_left _ (List.mem_append_left _ ?_)
    simp only [_detect_single_patterns, getD_recent89]
    refine List.mem_append_left _ (List.mem_append_left _ (List.mem_append_left _ ?_))
    rw [mem_ite_singleton]
    constructor
    · norm_num [candle_metrics, dojiBar, doji_threshold, epsQ]
    · rfl

/-- C4 witness: on the 91-bar series `df91` the doji is detected at the
last bar (full index 90 = sub-frame index 89 + shift 1), and the
statistics collector anchors its forward returns at full index 89 — a bar
on which no doji occurred. -/
theorem C4_witness :
    90 < df91.length ∧ dojiP ∈ detect_candlestick_patterns df91 90 ∧
    (dojiP.date = (df91.getD (dojiP.index + (df91.length - 90)) default).date ∧
      dojiP.index + (df91.length - 90) ≠ dojiP.index ∧
      collect_outcomes [dojiP] df91 = [(dojiP.name,
        { count := 1, ptype := dojiP.ptype,
          outcomes := horizons.map fun h =>
            (h, if dojiP.index + h < df91.length then [pattern_return df91 dojiP.index h]
              else []) })]) := by
  have h1 : (90 : ℕ) < df91.length := by simp [df91]
  exact ⟨h1, dojiP_mem, C4_stats_anchor_mismatch df91 dojiP h1 dojiP_mem⟩

/-- A sum of squares is non-negative. -/
lemma sumSq_nonneg (l : List ℝ) : 0 ≤ sumSq l := by
  induction l with
  | nil => simp [sumSq]
  | cons x t ih =>
    simp only [sumSq, List.map_cons, List.sum_cons]
    exact add_nonneg (sq_nonneg x) ih

/-- A vanishing sum of squares has only zero entries. -/
lemma sumSq_eq_zero_all {l : List ℝ} (h : sumSq l = 0) : ∀ x ∈ l, x = 0 := by
  induction l with
  | nil => simp
  | cons a t ih =>
    have h0 : a ^ 2 + sumSq t = 0 := by simpa [sumSq] using h
    have ha : a ^ 2 = 0 := by nlinarith [sumSq_nonneg t, sq_nonneg a]
    have ht : sumSq t = 0 := by nlinarith [sumSq_nonneg t, sq_nonneg a]
    intro x hx
    rcases List.mem_cons.mp hx with rfl | hx
    · exact pow_eq_zero_iff (two_ne_zero) |>.mp ha
    · exact ih ht x hx

/-- The difference of a vector with itself has zero sum of squares. -/
lemma sumSq_sub2_self (l : List ℝ) : sumSq (sub2 l l) = 0 := by
  induction l with
  | nil => rfl
  | cons a t ih =>
    simp only [sub2, List.zipWith_cons_cons, sumSq, List.map_cons, List.sum_cons] at ih ⊢
    rw [sub_self]
    simp only [ne_eq, OfNat.ofNat_ne_zero, not_false_eq_true, zero_pow, zero_add]
    exact ih

/-- The shape sub-score of a window with itself is 1. -/
lemma shapeSim_self (n : List ℝ) : shapeSim n n = 1 := by
  rw [shapeSim, normE, sumSq_sub2_self, Real.sqrt_zero, mul_zero, Real.exp_zero]

/-- The diagonal of the DTW cost matrix of a sequence with itself is 0. -/
lemma dtwD_self (x : List ℝ) : ∀ k, dtwD x x k k = 0 := by
  intro k
  induction k with
  | zero => simp [dtwD]
  | succ k ih =>
    simp only [dtwD]
    rw [ih, sub_self, abs_zero, ENNReal.ofReal_zero, zero_add,
      min_eq_right (zero_le (dtwD x x (k + 1) k)),
      min_eq_right (zero_le (dtwD x x k (k + 1)))]

/-- The DTW distance of a sequence with itself is 0. -/
lemma dtwDist_self (x : List ℝ) : dtwDist x x = 0 := by
  rw [dtwDist, dtwD_self]
  rfl

/-- The dtw sub-score of a window with itself is 1. -/
lemma dtwSim_self (n : List ℝ) : dtwSim n n = 1 := by
  rw [dtwSim, dtwDist_self, mul_zero, Real.exp_zero]

/-- The per-bar structure distance of a bar with itself is 0. -/
lemma featDist_self (p : ℝ × ℝ × ℝ) : featDist p p = 0 := by
  simp [featDist]

/-- The structure sub-score of a window with itself is 1. -/
lemma structSim_self (d : List PriceBar) : structSim d d = 1 := by
  have hz : List.zipWith featDist (structFeats d) (structFeats d) =
      List.replicate (structFeats d).length 0 := by
    generalize structFeats d = F
    induction F with
    | nil => rfl
    | cons p t ih => simp [List.zipWith_cons_cons, featDist_self, ih, List.replicate_succ]
  rw [structSim, hz, rmean, List.sum_replicate]
  simp [Real.exp_zero]

/-- The volatility sub-score of a window with itself is 1. -/
lemma volSim_self (n : List ℝ) : volSim n n = 1 := by
  rw [volSim, sub_self, abs_zero, mul_zero, Real.exp_zero]

/-- The turning-point sub-score of a window with itself is 1. -/
lemma turnSim_self (L : ℕ) (n : List ℝ) : turnSim L n n = 1 := by
  rw [turnSim, sub_self, abs_zero, sub_self, abs_zero, add_zero, mul_zero, Real.exp_zero]

/-- `np.dot` of a vector with itself is its sum of squares. -/
lemma dotp_self (l : List ℝ) : dotp l l = sumSq l := by
  induction l with
  | nil => rfl
  | cons a t ih =>
    simp only [dotp, sumSq, List.zipWith_cons_cons, List.map_cons, List.sum_cons] at ih ⊢
    rw [ih, pow_two]

/-- The trend sub-score of a window with itself is 1 when its gradient
does not vanish. -/
lemma trendSim_self {n : List ℝ} (h : 0 < sumSq (npGradient n)) : trendSim n n = 1 := by
  have hmul : normE (npGradient n) * normE (npGradient n) = sumSq (npGradient n) := by
    rw [normE, Real.mul_self_sqrt (sumSq_nonneg _)]
  rw [trendSim, hmul, if_pos h, dotp_self, div_self (ne_of_gt h)]
  norm_num

/-- Lists of length at most 1 have all members equal. -/
lemma length_le_one_allSame {l : List ℝ} (h : l.length ≤ 1) :
    ∀ x ∈ l, ∀ y ∈ l, x = y := by
  match l with
  | [] => simp
  | [a] => simp
  | a :: b :: t => simp at h

/-- A vanishing `np.gradient` forces a constant sequence. -/
lemma gradEntry_zero_const {l : List ℝ} (h2 : 2 ≤ l.length)
    (hg : ∀ i < l.length, gradEntry l i = 0) :
    ∀ i < l.length, l.getD i 0 = l.getD 0 0 := by
  intro i
  induction i using Nat.strong_induction_on with
  | _ i ih =>
    intro hi
    rcases i with _ | i1
    · rfl
    rcases i1 with _ | i2
    · have h0 := hg 0 (by omega)
      rw [gradEntry, if_neg (by omega), if_pos rfl] at h0
      exact sub_eq_zero.mp h0
    · have hj := hg (i2 + 1) (by omega)
      rw [gradEntry, if_neg (by omega), if_neg (by omega), if_neg (by omega)] at hj
      have heq : l.getD (i2 + 1 + 1) 0 = l.getD (i2 + 1 - 1) 0 := by
        have := div_eq_zero_iff.mp hj
        rcases this with h | h
        · linarith [sub_eq_zero.mp h]
        · norm_num at h
      have h22 : i2 + 1 - 1 = i2 := by omega
      rw [heq, h22]
      exact ih i2 (by omega) (by omega)

/-- A sequence with two distinct members has a gradient with positive sum
of squares. -/
lemma sumSq_gradient_pos {l : List ℝ} (hne : ∃ u ∈ l, ∃ v ∈ l, u ≠ v) :
    0 < sumSq (npGradient l) := by
  obtain ⟨u, hu, v, hv, huv⟩ := hne
  have h2 : 2 ≤ l.length := by
    by_contra hlen
    exact huv (length_le_one_allSame (by omega) u hu v hv)
  rcases lt_or_le 0 (sumSq (npGradient l)) with h | h
  · exact h
  · exfalso
    have hz : sumSq (npGradient l) = 0 := le_antisymm h (sumSq_nonneg _)
    have hall := sumSq_eq_zero_all hz
    have hg : ∀ i < l.length, gradEntry l i = 0 := fun i hi =>
      hall _ (by rw [npGradient]; exact List.mem_map_of_mem _ (List.mem_range.mpr hi))
    have hconst := gradEntry_zero_const h2 hg
    obtain ⟨iu, hiu, rfl⟩ := List.mem_iff_getElem.mp hu
    obtain ⟨iv, hiv, rfl⟩ := List.mem_iff_getElem.mp hv
    apply huv
    rw [← List.getD_eq_getElem l 0 hiu, ← List.getD_eq_getElem l 0 hiv,
      hconst iu hiu, hconst iv hiv]

/-- A left fold of `min` is below its initial value. -/
lemma foldl_min_le_init (l : List ℝ) (a : ℝ) : l.foldl min a ≤ a := by
  induction l generalizing a with
  | nil => exact le_refl a
  | cons b t ih => exact (ih (min a b)).trans (min_le_left a b)

/-- A left fold of `min` is below every list member. -/
lemma foldl_min_le_mem {l : List ℝ} {x : ℝ} (h : x ∈ l) (a : ℝ) : l.foldl min a ≤ x := by
  induction l generalizing a with
  | nil => cases h
  | cons b t ih =>
    rcases List.mem_cons.mp h with rfl | hx
    · exact (foldl_min_le_init t (min a x)).trans (min_le_right a x)
    · exact ih hx (min a b)

/-- `np.min` is a lower bound of the array. -/
lemma listMin_le_of_mem {l : List ℝ} {x : ℝ} (h : x ∈ l) : listMin l ≤ x := by
  cases l with
  | nil => cases h
  | cons a t =>
    rcases List.mem_cons.mp h with rfl | hx
    · exact foldl_min_le_init t x
    · exact foldl_min_le_mem hx a

/-- A left fold of `max` is above its initial value. -/
lemma le_foldl_max_init (l : List ℝ) (a : ℝ) : a ≤ l.foldl max a := by
  induction l generalizing a with
  | nil => exact le_refl a
  | cons b t ih => exact (le_max_left a b).trans (ih (max a b))

/-- A left fold of `max` is above every list member. -/
lemma le_foldl_max_mem {l : List ℝ} {x : ℝ} (h : x ∈ l) (a : ℝ) : x ≤ l.foldl max a := by
  induction l generalizing a with
  | nil => cases h
  | cons b t ih =>
    rcases List.mem_cons.mp h with rfl | hx
    · exact (le_max_right a x).trans (le_foldl_max_init t (max a x))
    · exact ih hx (max a b)

/-- `np.max` is an upper bound of the array. -/
lemma le_listMax_of_mem {l : List ℝ} {x : ℝ} (h : x ∈ l) : x ≤ listMax l := by
  cases l with
  | nil => cases h
  | cons a t =>
    rcases List.mem_cons.mp h with rfl | hx
    · exact le_foldl_max_init t x
    · exact le_foldl_max_mem hx a

/-- Two distinct members force `min < max`. -/
lemma listMin_lt_listMax {l : List ℝ} {x y : ℝ} (hx : x ∈ l) (hy : y ∈ l) (hxy : x ≠ y) :
    listMin l < listMax l := by
  rcases lt_or_le (listMin l) (listMax l) with h | h
  · exact h
  · exfalso
    apply hxy
    have b1 := listMin_le_of_mem hx
    have b2 := le_listMax_of_mem hx
    have b3 := listMin_le_of_mem hy
    have b4 := le_listMax_of_mem hy
    linarith

/-- Min-max normalization of an array with two distinct entries is not
constant. -/
lemma normalize_not_allSame {c : List ℝ} {x y : ℝ} (hx : x ∈ c) (hy : y ∈ c) (hxy : x ≠ y) :
    ∃ u ∈ normalizeCloses c, ∃ v ∈ normalizeCloses c, u ≠ v := by
  have hlt := listMin_lt_listMax hx hy hxy
  have hD : 0 < listMax c - listMin c + epsR := by
    have : (0 : ℝ) < 1 / 1000000000 := by norm_num
    rw [epsR]
    linarith
  refine ⟨(x - listMin c) / (listMax c - listMin c + epsR), List.mem_map_of_mem _ hx,
    (y - listMin c) / (listMax c - listMin c + epsR), List.mem_map_of_mem _ hy, ?_⟩
  intro heq
  apply hxy
  have h2 := congrArg (fun z => z * (listMax c - listMin c + epsR)) heq
  simp only [div_mul_cancel₀ _ (ne_of_gt hD)] at h2
  linarith

/-- C1: the MMPS similarity of a window with itself whose close prices are
not all equal has final score exactly 100. -/
theorem C1_mmps_self_is_100 (A : List PriceBar) (h : ¬ allSame (A.map fun b => b.close)) :
    (mmps_similarity A A).final = 100 := by
  rw [allSame] at h
  push_neg at h
  obtain ⟨x, hx, y, hy, hxy⟩ := h
  have hxR : ((x : ℚ) : ℝ) ∈ closesR A := by
    rw [closesR]
    obtain ⟨b, hb, rfl⟩ := List.mem_map.mp hx
    exact List.mem_map_of_mem _ hb
  have hyR : ((y : ℚ) : ℝ) ∈ closesR A := by
    rw [closesR]
    obtain ⟨b, hb, rfl⟩ := List.mem_map.mp hy
    exact List.mem_map_of_mem _ hb
  have hxyR : ((x : ℚ) : ℝ) ≠ ((y : ℚ) : ℝ) := by exact_mod_cast hxy
  have hL : lastN (min A.length A.length) A = A := by
    rw [Nat.min_self, lastN, Nat.sub_self, List.drop_zero]
  simp only [mmps_similarity]
  rw [hL]
  have hn := normalize_not_allSame hxR hyR hxyR
  rw [shapeSim_self, dtwSim_self, structSim_self, volSim_self, turnSim_self,
    trendSim_self (sumSq_gradient_pos hn)]
  have hsum : ((25 : ℝ)/100 * 1 + 20/100 * 1 + 20/100 * 1 + 15/100 * 1 + 10/100 * 1 +
      10/100 * 1) * 100 = 100 := by norm_num
  rw [hsum, round2R]
  have h100 : ((100 : ℝ) * 100) = ((10000 : ℤ) : ℝ) := by norm_num
  rw [h100, round_intCast]
  norm_num

/-- C1 witness: a two-bar window with closes 1 and 2. -/
theorem C1_witness :
    ¬ allSame (win2.map fun b => b.close) ∧ (mmps_similarity win2 win2).final = 100 := by
  have h : ¬ allSame (win2.map fun b => b.close) := by
    rw [allSame]
    intro hall
    have h12 := hall 1 (by simp [win2]) 2 (by simp [win2])
    norm_num at h12
  exact ⟨h, C1_mmps_self_is_100 win2 h⟩

/-- The squared pointwise difference is symmetric. -/
lemma sumSq_sub2_comm (a b : List ℝ) : sumSq (sub2 a b) = sumSq (sub2 b a) := by
  induction a generalizing b with
  | nil => cases b <;> rfl
  | cons x t ih =>
    cases b with
    | nil => rfl
    | cons y u =>
      simp only [sub2, List.zipWith_cons_cons, sumSq, List.map_cons, List.sum_cons] at ih ⊢
      rw [show y - x = -(x - y) from (neg_sub x y).symm, neg_sq]
      have := ih u
      rw [this]

/-- The shape sub-score is symmetric. -/
lemma shapeSim_comm (a b : List ℝ) : shapeSim a b = shapeSim b a := by
  rw [shapeSim, shapeSim, normE, normE, sumSq_sub2_comm]

/-- The DTW cost matrix transposes under swapping the sequences. -/
lemma dtwD_symm (x y : List ℝ) : ∀ i j, dtwD x y i j = dtwD y x j i := by
  intro i
  induction i with
  | zero =>
    intro j
    cases j with
    | zero => simp [dtwD]
    | succ j => simp [dtwD]
  | succ i ih =>
    intro j
    induction j with
    | zero => simp [dtwD]
    | succ j ihj =>
      simp only [dtwD]
      rw [abs_sub_comm, ih (j + 1), ih j, ihj, min_left_comm]

/-- The DTW distance is symmetric. -/
lemma dtwDist_comm (a b : List ℝ) : dtwDist a b = dtwDist b a := by
  rw [dtwDist, dtwDist, dtwD_symm]

/-- The dtw sub-score is symmetric. -/
lemma dtwSim_comm (a b : List ℝ) : dtwSim a b = dtwSim b a := by
  rw [dtwSim, dtwSim, dtwDist_comm]

/-- The per-bar structure distance is symmetric. -/
lemma featDist_comm (p q : ℝ × ℝ × ℝ) : featDist p q = featDist q p := by
  unfold featDist
  congr 1
  ring

/-- The structure sub-score is symmetric. -/
lemma structSim_comm (a b : List PriceBar) : structSim a b = structSim b a := by
  rw [structSim, structSim, List.zipWith_comm_of_comm featDist featDist_comm]

/-- `np.dot` is symmetric. -/
lemma dotp_comm (a b : List ℝ) : dotp a b = dotp b a := by
  rw [dotp, dotp, List.zipWith_comm_of_comm (fun x y => x * y) mul_comm]

/-- The trend sub-score is symmetric. -/
lemma trendSim_comm (a b : List ℝ) : trendSim a b = trendSim b a := by
  rw [trendSim, trendSim, dotp_comm (npGradient a) (npGradient b),
    mul_comm (normE (npGradient a)) (normE (npGradient b))]

/-- The volatility sub-score is symmetric. -/
lemma volSim_comm (a b : List ℝ) : volSim a b = volSim b a := by
  rw [volSim, volSim, abs_sub_comm]

/-- The turning-point sub-score is symmetric. -/
lemma turnSim_comm (L : ℕ) (a b : List ℝ) : turnSim L a b = turnSim L b a := by
  rw [turnSim, turnSim, abs_sub_comm ((argmaxIdx a : ℝ) / L) ((argmaxIdx b : ℝ) / L),
    abs_sub_comm ((argminIdx a : ℝ) / L) ((argminIdx b : ℝ) / L)]

/-- C2: the MMPS final score is symmetric in its two windows (stated, as
in the claim, for windows of equal length; the proof does not even need
the length hypothesis). -/
theorem C2_mmps_symmetric (A B : List PriceBar) (hlen : A.length = B.length) :
    (mmps_similarity A B).final = (mmps_similarity B A).final := by
  simp only [mmps_similarity]
  rw [Nat.min_comm B.length A.length]
  rw [shapeSim_comm, dtwSim_comm, structSim_comm, trendSim_comm, volSim_comm, turnSim_comm]

/-- C2 witness: two concrete two-bar windows. -/
theorem C2_witness :
    win2.length = win2b.length ∧
    (mmps_similarity win2 win2b).final = (mmps_similarity win2b win2).final :=
  ⟨rfl, C2_mmps_symmetric win2 win2b rfl⟩
